import Mathlib

/-!
Shallow embedding of the financial-metrics derivation and incremental
reconciliation core of the dart-fss-extractor repository.

Python sources embedded here:
  - src/core/services/data_processing_service.py
  - src/core/services/incremental_update_service.py
  - src/core/services/financial_collection_service.py  (safe_sum)
  - src/infra/adapters/dart_response_parser.py
  - src/core/domain/models/financial_statement.py, performance_metrics.py

Python Decimal values are modelled as rationals.  pandas DataFrames are
modelled by an index list, a column list and a total cell function where
the value none stands for NaN (the missing-value sentinel).  I/O (file
reading, backup copies, Excel writing, sleeping) is outside the model;
the statement-retrieval and corp-code ports are passed in as functions.
-/

namespace DartFss

/-! ### Python string helpers (shared plumbing for the embedded functions) -/

/-- Value of a decimal digit character. -/
def digitVal (c : Char) : Nat := c.toNat - 48

/-- Fold a digit list into the natural number it denotes. -/
def natFold (l : List Char) : Nat := l.foldl (fun a c => a * 10 + digitVal c) 0

/-- Parse a non-empty all-digit character list; models int-like digit runs. -/
def natOfDigits (l : List Char) : Option Nat :=
  if l.isEmpty then none
  else if l.all Char.isDigit then some (natFold l) else none

/-- Python str.split with a one-character separator: splits at every
occurrence, keeping empty parts (so "a..b".split gives three parts).
The result is always non-empty; a separator opens a fresh part and any
other character is prepended to the current first part. -/
def pySplitChar (sep : Char) : List Char → List (List Char)
  | [] => [[]]
  | c :: cs =>
    let parts := pySplitChar sep cs
    if c = sep then [] :: parts
    else (c :: parts.headD []) :: parts.tail

/-- Python str.strip(): drop leading and trailing whitespace. -/
def pyTrim (l : List Char) : List Char :=
  ((l.dropWhile Char.isWhitespace).reverse.dropWhile Char.isWhitespace).reverse

/-- Python int(str) on plain optionally-signed decimal numerals (surrounding
whitespace allowed).  Underscore digit grouping and non-ASCII digits, which
CPython also accepts, are not modelled; period labels never use them. -/
def pyIntOfChars (l : List Char) : Option Int :=
  match pyTrim l with
  | '-' :: r => (natOfDigits r).map (fun n => -(n : Int))
  | '+' :: r => (natOfDigits r).map (fun n => (n : Int))
  | r => (natOfDigits r).map (fun n => (n : Int))

/-- Python Decimal(str) on finite plain numerals: optional surrounding
whitespace, optional sign, digits with at most one decimal point and at
least one digit.  Exponent forms and NaN/Infinity, which Decimal also
accepts, are not modelled; DART amount strings are plain numerals. -/
def pyDecimalOfChars (l : List Char) : Option ℚ :=
  let go : List Char → Option ℚ := fun body =>
    match pySplitChar '.' body with
    | [ip] => (natOfDigits ip).map (fun n => (n : ℚ))
    | [ip, fp] =>
      if ip.all Char.isDigit && fp.all Char.isDigit && !(ip.isEmpty && fp.isEmpty) then
        some ((natFold ip * 10 ^ fp.length + natFold fp : ℕ) / (10 ^ fp.length : ℚ))
      else none
    | _ => none
  match pyTrim l with
  | '-' :: r => (go r).map (fun q => -q)
  | '+' :: r => go r
  | r => go r

/-- Skip characters up to and including the first closing parenthesis,
returning the remainder; none when no closing parenthesis exists. -/
def dropThroughClose : List Char → Option (List Char)
  | [] => none
  | c :: cs => if c = ')' then some cs else dropThroughClose cs

/-- Fuel-driven worker for stripParens.  Every step consumes at least one
character of the input, so fuel equal to the input length never runs out;
the fuel only makes the recursion structural. -/
def stripParensF : Nat → List Char → List Char
  | _, [] => []
  | 0, l => l
  | fuel + 1, c :: cs =>
    if c = '(' then
      match dropThroughClose cs with
      | some rest => stripParensF fuel rest
      | none => c :: cs
    else
      c :: stripParensF fuel cs

/-- The effect of re.sub removing every parenthesized group: each opening
parenthesis that has a later closing one is removed together with
everything through that first closing parenthesis; an opening parenthesis
with no later closing one is left in place, as the pattern cannot match
anywhere in the remainder. -/
def stripParens (l : List Char) : List Char := stripParensF l.length l

/-- Hangul syllable test, the character class kept by the normalization
regex (code points from 가 through 힣). -/
def isHangul (c : Char) : Bool := 0xAC00 ≤ c.toNat && c.toNat ≤ 0xD7A3

/-- Prefix test on character lists (used for the Python substring test). -/
def startsWithSeq : List Char → List Char → Bool
  | [], _ => true
  | _ :: _, [] => false
  | a :: as, b :: bs => a = b && startsWithSeq as bs

/-- Python substring containment test (the in operator on str). -/
def containsSub (needle : List Char) : List Char → Bool
  | [] => needle.isEmpty
  | c :: cs => startsWithSeq needle (c :: cs) || containsSub needle cs

/-! ### Domain models (core/domain/models) -/

/-- ReportType enum from financial_statement.py. -/
inductive ReportType where
  | Q1
  | SEMI_ANNUAL
  | Q3
  | ANNUAL
deriving DecidableEq

/-- FinancialStatementType enum from financial_statement.py. -/
inductive FinancialStatementType where
  | CONSOLIDATED
  | SEPARATE
deriving DecidableEq

/-- AccountItem dataclass: an account name and its raw amount string. -/
structure AccountItem where
  account_nm : String
  thstrm_amount : String
deriving DecidableEq

/-- A calendar date as datetime.date carries it. -/
structure PyDate where
  year : Nat
  month : Nat
  day : Nat
deriving DecidableEq

/-- FinancialStatement dataclass.  The extracted_at timestamp is omitted:
it is wall-clock metadata never consulted by the derivation core. -/
structure FinancialStatement where
  corp_code : String
  corp_name : String
  bsns_year : Int
  reprt_type : ReportType
  fs_type : FinancialStatementType
  accounts : List AccountItem
  start_date : Option PyDate := none
  end_date : Option PyDate := none
  is_cumulative : Bool := false

/-- FinancialMetrics dataclass: the three canonical metrics, each
independently optional (none models Python None). -/
structure FinancialMetrics where
  revenue : Option ℚ
  operating_profit : Option ℚ
  net_income : Option ℚ
deriving DecidableEq

/-- QuarterlyMetrics dataclass; the quarter dictionary is carried as an
association list keyed by the quarter labels. -/
structure QuarterlyMetrics where
  corp_name : String
  metrics_by_quarter : List (String × FinancialMetrics)

/-- The all-None triple FinancialMetrics(None, None, None). -/
def noneMetrics : FinancialMetrics := ⟨none, none, none⟩

/-! ### DataProcessingService (data_processing_service.py) -/

/-- The service object: the three ordered keyword lists its constructor
installs (from the TOML config when present, else the defaults below).
Config-file reading is I/O and stays outside the model; the lists are the
state the constructor leaves behind. -/
structure DataProcessingService where
  REVENUE_KEYWORDS : List String
  OP_PROFIT_KEYWORDS : List String
  NET_INCOME_KEYWORDS : List String

/-- The built-in default keyword lists (the constructor's fallback branch
when no config file exists). -/
def defaultService : DataProcessingService where
  REVENUE_KEYWORDS := ["매출액", "수익(매출액)", "영업수익", "매출"]
  OP_PROFIT_KEYWORDS := ["영업이익", "영업이익(손실)"]
  NET_INCOME_KEYWORDS := ["당기순이익", "당기순이익(손실)", "분기순이익", "분기순이익(손실)",
    "반기순이익", "반기순이익(손실)"]

/-- _normalize_account_name: drop every parenthesized group, then keep
only Hangul syllables (the two re.sub calls). -/
def normalize_account_name (name : String) : List Char :=
  (stripParens name.toList).filter isHangul

/-- _parse_amount: empty or lone-dash strings are absent; thousands
separators are stripped; a fully parenthesized value is negated; a string
Decimal cannot parse is absent (never an error). -/
def parse_amount (amount_str : String) : Option ℚ :=
  let l := amount_str.toList
  if l.isEmpty || l = ['-'] then none
  else
    let clean := l.filter (fun c => c ≠ ',')
    let clean2 :=
      if clean.head? = some '(' && clean.getLast? = some ')' then
        '-' :: (clean.drop 1).dropLast
      else clean
    pyDecimalOfChars clean2

/-- _find_exact_match: scan keywords in priority order; the first account
whose normalized name equals the normalized keyword ends the whole search
and its amount is parsed (even when parsing yields None). -/
def find_exact_match (accounts : List AccountItem) : List String → Option ℚ
  | [] => none
  | kw :: kws =>
    match accounts.find? (fun a => normalize_account_name a.account_nm = normalize_account_name kw) with
    | some a => parse_amount a.thstrm_amount
    | none => find_exact_match accounts kws

/-- _find_partial_match: same scan, with the normalized keyword required
only to be a substring of the normalized account name. -/
def find_partial_match (accounts : List AccountItem) : List String → Option ℚ
  | [] => none
  | kw :: kws =>
    match accounts.find?
        (fun a => containsSub (normalize_account_name kw) (normalize_account_name a.account_nm)) with
    | some a => parse_amount a.thstrm_amount
    | none => find_partial_match accounts kws

/-- _find_account_value: exact pass first; a None outcome (no match, or a
matched but unparseable amount) falls through to the partial pass. -/
def find_account_value (accounts : List AccountItem) (keywords : List String) : Option ℚ :=
  match find_exact_match accounts keywords with
  | some v => some v
  | none => find_partial_match accounts keywords

/-- extract_metrics: one Account-Matcher run per canonical metric. -/
def extract_metrics (svc : DataProcessingService) (statement : FinancialStatement) :
    FinancialMetrics where
  revenue := find_account_value statement.accounts svc.REVENUE_KEYWORDS
  operating_profit := find_account_value statement.accounts svc.OP_PROFIT_KEYWORDS
  net_income := find_account_value statement.accounts svc.NET_INCOME_KEYWORDS

/-- _safe_sub: None-propagating subtraction. -/
def safe_sub (a b : Option ℚ) : Option ℚ :=
  match a, b with
  | some x, some y => some (x - y)
  | _, _ => none

/-- _safe_add: None-propagating addition. -/
def safe_add (a b : Option ℚ) : Option ℚ :=
  match a, b with
  | some x, some y => some (x + y)
  | _, _ => none

/-- _calculate_diff: component-wise safe subtraction. -/
def calculate_diff (minuend subtrahend : FinancialMetrics) : FinancialMetrics where
  revenue := safe_sub minuend.revenue subtrahend.revenue
  operating_profit := safe_sub minuend.operating_profit subtrahend.operating_profit
  net_income := safe_sub minuend.net_income subtrahend.net_income

/-- _add_metrics: component-wise safe addition. -/
def add_metrics (a b : FinancialMetrics) : FinancialMetrics where
  revenue := safe_add a.revenue b.revenue
  operating_profit := safe_add a.operating_profit b.operating_profit
  net_income := safe_add a.net_income b.net_income

/-- _calculate_q1: the Q1 statement's metrics verbatim, all-None when the
statement is absent. -/
def calculate_q1 (svc : DataProcessingService) (q1_stmt : Option FinancialStatement) :
    FinancialMetrics :=
  match q1_stmt with
  | some s => extract_metrics svc s
  | none => noneMetrics

/-- _calculate_q2: absent half-year gives the all-None triple; a
cumulative half-year with Q1 present subtracts Q1; otherwise the raw
half-year metrics are used unchanged. -/
def calculate_q2 (svc : DataProcessingService)
    (q1_stmt semi_stmt : Option FinancialStatement) : FinancialMetrics :=
  match semi_stmt with
  | none => noneMetrics
  | some ss =>
    let semi_metrics := extract_metrics svc ss
    match ss.is_cumulative, q1_stmt with
    | true, some q1 => calculate_diff semi_metrics (extract_metrics svc q1)
    | _, _ => semi_metrics

/-- _calculate_q3: absent Q3 gives the all-None triple; a cumulative Q3
with the half-year present subtracts the half-year; otherwise raw Q3. -/
def calculate_q3 (svc : DataProcessingService)
    (semi_stmt q3_stmt : Option FinancialStatement) : FinancialMetrics :=
  match q3_stmt with
  | none => noneMetrics
  | some qs =>
    let q3_metrics := extract_metrics svc qs
    match qs.is_cumulative, semi_stmt with
    | true, some ss => calculate_diff q3_metrics (extract_metrics svc ss)
    | _, _ => q3_metrics

/-- _get_cumulative_q3: a cumulative Q3 statement is already the
year-to-date value; otherwise the half-year and Q3 metrics are added when
both their revenue fields are present; else None.  The q1 argument is
accepted but unused, as in the source. -/
def get_cumulative_q3 (q1 semi q3 : FinancialMetrics)
    (q3_stmt : Option FinancialStatement) : Option FinancialMetrics :=
  if (match q3_stmt with | some st => st.is_cumulative | none => false) then
    some q3
  else if semi.revenue.isSome && q3.revenue.isSome then
    some (add_metrics semi q3)
  else
    none

/-- The optional-statement extraction used at the _calculate_q4 call site
(extract when present, the all-None triple otherwise). -/
def extract_opt (svc : DataProcessingService) (stmt : Option FinancialStatement) :
    FinancialMetrics :=
  match stmt with
  | some s => extract_metrics svc s
  | none => noneMetrics

/-- _calculate_q4: absent annual statement, or an absent
cumulative-through-Q3 value, gives the all-None triple; otherwise annual
minus cumulative-through-Q3. -/
def calculate_q4 (svc : DataProcessingService)
    (q1_stmt semi_stmt q3_stmt annual_stmt : Option FinancialStatement) : FinancialMetrics :=
  match annual_stmt with
  | none => noneMetrics
  | some ann =>
    let annual_metrics := extract_metrics svc ann
    let q1_metrics := extract_opt svc q1_stmt
    let semi_metrics := extract_opt svc semi_stmt
    let q3_metrics := extract_opt svc q3_stmt
    match get_cumulative_q3 q1_metrics semi_metrics q3_metrics q3_stmt with
    | some c => calculate_diff annual_metrics c
    | none => noneMetrics

/-- The cumulative-through-Q3 value exactly as _calculate_q4 computes it
from the four optional statements. -/
def cumulative_q3_of (svc : DataProcessingService)
    (q1_stmt semi_stmt q3_stmt : Option FinancialStatement) : Option FinancialMetrics :=
  get_cumulative_q3 (extract_opt svc q1_stmt) (extract_opt svc semi_stmt)
    (extract_opt svc q3_stmt) q3_stmt

/-- _extract_corp_name: the first present statement with a non-empty
corp_name wins, in the order the list supplies them; else empty. -/
def extract_corp_name : List (Option FinancialStatement) → String
  | [] => ""
  | none :: rest => extract_corp_name rest
  | some st :: rest => if st.corp_name ≠ "" then st.corp_name else extract_corp_name rest

/-- calculate_quarterly_performance: the four per-quarter derivations
plus the corp-name scan, packaged with all four quarter keys present. -/
def calculate_quarterly_performance (svc : DataProcessingService)
    (q1_stmt semi_stmt q3_stmt annual_stmt : Option FinancialStatement) : QuarterlyMetrics where
  corp_name := extract_corp_name [q1_stmt, semi_stmt, q3_stmt, annual_stmt]
  metrics_by_quarter :=
    [("1Q", calculate_q1 svc q1_stmt),
     ("2Q", calculate_q2 svc q1_stmt semi_stmt),
     ("3Q", calculate_q3 svc semi_stmt q3_stmt),
     ("4Q", calculate_q4 svc q1_stmt semi_stmt q3_stmt annual_stmt)]

/-! ### DartResponseParser (infra/adapters/dart_response_parser.py) -/

/-- One entry of the response's list field; each field is read with
dict.get and an empty-string default, so they are plain strings here. -/
structure RawItem where
  corp_name : String := ""
  thstrm_dt : String := ""
  account_nm : String := ""
  thstrm_amount : String := ""

/-- The response dictionary: its status string and its list field. -/
structure RawResponse where
  status : String
  items : List RawItem

/-- Number of days in a month of the proleptic Gregorian calendar, as
datetime.date validates it. -/
def daysInMonth (y m : Nat) : Nat :=
  if m = 2 then
    if y % 4 = 0 && (y % 100 ≠ 0 || y % 400 = 0) then 29 else 28
  else if m = 4 || m = 6 || m = 9 || m = 11 then 30
  else 31

/-- datetime.strptime with format "%Y.%m.%d" followed by .date(): exactly
four year digits, one or two month and day digits, full-string match, and
date validation (datetime.MINYEAR is 1). -/
def pyStrptimeDate (s : String) : Option PyDate :=
  match pySplitChar '.' s.toList with
  | [ys, ms, ds] =>
    if ys.length = 4 && ys.all Char.isDigit
        && 1 ≤ ms.length && ms.length ≤ 2 && ms.all Char.isDigit
        && 1 ≤ ds.length && ds.length ≤ 2 && ds.all Char.isDigit then
      let y := natFold ys
      let m := natFold ms
      let d := natFold ds
      if 1 ≤ y && 1 ≤ m && m ≤ 12 && 1 ≤ d && d ≤ daysInMonth y m then
        some ⟨y, m, d⟩
      else none
    else none
  | _ => none

/-- _parse_date_info: reads items[0].thstrm_dt, splits on the tilde,
strips and strptime-parses both sides, and flags the statement cumulative
exactly when the parsed start date has month 1 and day 1; every failure
path yields (None, None, False). -/
def parse_date_info (items : List RawItem) : Option PyDate × Option PyDate × Bool :=
  match items with
  | [] => (none, none, false)
  | it :: _ =>
    if it.thstrm_dt = "" then (none, none, false)
    else
      match pySplitChar '~' it.thstrm_dt.toList with
      | [a, b] =>
        match pyStrptimeDate (String.mk (pyTrim a)), pyStrptimeDate (String.mk (pyTrim b)) with
        | some sd, some ed => (some sd, some ed, sd.month = 1 && sd.day = 1)
        | _, _ => (none, none, false)
      | _ => (none, none, false)

/-- _parse_accounts: one AccountItem per response item. -/
def parse_accounts (items : List RawItem) : List AccountItem :=
  items.map (fun it => ⟨it.account_nm, it.thstrm_amount⟩)

/-- parse_financial_statement: reject a non-"000" status or an empty
list, then assemble the statement with the parsed date info. -/
def parse_financial_statement (resp : RawResponse) (corp_code : String) (year : Int)
    (report_type : ReportType) (fs_type : FinancialStatementType) :
    Option FinancialStatement :=
  if resp.status ≠ "000" then none
  else
    match h : resp.items with
    | [] => none
    | it :: _ =>
      let info := parse_date_info resp.items
      some
        { corp_code := corp_code
          corp_name := it.corp_name
          bsns_year := year
          reprt_type := report_type
          fs_type := fs_type
          accounts := parse_accounts resp.items
          start_date := info.1
          end_date := info.2.1
          is_cumulative := info.2.2 }

/-! ### The result-matrix model (pandas DataFrames) -/

/-- A pandas DataFrame of optional numeric cells: row labels, column
labels, and a total cell function where none models NaN.  The cell
function of a well-formed frame returns none outside its own row and
column labels, matching alignment-based lookups. -/
structure DataFrame where
  index : List String
  columns : List String
  cell : String → String → Option ℚ

/-- pandas DataFrame.empty: some axis has length zero. -/
def DataFrame.isEmptyDf (df : DataFrame) : Bool :=
  df.index.isEmpty || df.columns.isEmpty

/-- Lexicographic code-point comparison on character lists, the order
Python uses for strings. -/
def listCharLe : List Char → List Char → Bool
  | [], _ => true
  | _ :: _, [] => false
  | a :: as, b :: bs => if a = b then listCharLe as bs else decide (a.toNat < b.toNat)

/-- String order for row sorting (sort_index on a string index). -/
def strLe (a b : String) : Bool := listCharLe a.toList b.toList

/-- Stable insertion of one element: it goes after every element the
comparison places at or before it. -/
def insertStable (le : String → String → Bool) (x : String) : List String → List String
  | [] => [x]
  | y :: ys => if le y x then y :: insertStable le x ys else x :: y :: ys

/-- Stable sort by a boolean total preorder.  Python's sorted is a stable
sort, and a stable sort's output is determined by the preorder, so this
insertion sort computes the same list. -/
def pySorted (le : String → String → Bool) (l : List String) : List String :=
  l.foldl (fun acc x => insertStable le x acc) []

/-! ### IncrementalUpdateService (incremental_update_service.py) -/

/-- The three quarterly sheet names (QUARTERLY_SHEETS). -/
def QUARTERLY_SHEETS : List String := ["매출액_분기", "영업이익_분기", "당기순이익_분기"]

/-- The column sort key inside merge_quarterly_data: a label containing
one dot yields (int(year-part), int(first char of quarter-part)); every
other label, a plain year included, yields (0, 0) through the bare-except
fallback. -/
def sort_key (col : String) : Int × Int :=
  match pySplitChar '.' col.toList with
  | [y, q] =>
    match pyIntOfChars y, q with
    | some yi, qc :: _ => if qc.isDigit then (yi, (digitVal qc : Int)) else (0, 0)
    | _, _ => (0, 0)
  | _ => (0, 0)

/-- The boolean preorder induced by sort_key (lexicographic on the
pair), driving the stable column sort. -/
def sortKeyLe (a b : String) : Bool :=
  decide ((sort_key a).1 < (sort_key b).1)
    || (decide ((sort_key a).1 = (sort_key b).1) && decide ((sort_key a).2 ≤ (sort_key b).2))

/-- The column reordering sorted(columns, key=sort_key) performs. -/
def sortColumns (cols : List String) : List String := pySorted sortKeyLe cols

/-- Union of label lists, first list's order first (the alignment set of
combine_first before the explicit re-sorts that follow it). -/
def unionLabels (xs ys : List String) : List String :=
  xs ++ ys.filter (fun y => !xs.contains y)

/-- pandas combine_first: align on the union of labels; the calling
frame's value wins wherever it is non-missing, the other frame only fills
its missing cells. -/
def combine_first (a b : DataFrame) : DataFrame where
  index := unionLabels a.index b.index
  columns := unionLabels a.columns b.columns
  cell := fun r c =>
    match a.cell r c with
    | some v => some v
    | none => b.cell r c

/-- The body of the merge loop for one existing sheet: non-quarterly
sheets pass through untouched, as do quarterly sheets with no (or an
empty) new counterpart; otherwise the sheets are combined with the
existing values taking precedence, rows re-sorted by name and columns
re-sorted by sort_key. -/
def merge_sheet_update (new_sheets : List (String × DataFrame)) (sheet_name : String)
    (existing_df : DataFrame) : DataFrame :=
  if !(QUARTERLY_SHEETS.contains sheet_name) then existing_df
  else
    match List.lookup sheet_name new_sheets with
    | none => existing_df
    | some new_df =>
      if new_df.isEmptyDf then existing_df
      else
        let merged := combine_first existing_df new_df
        { merged with
            index := pySorted strLe merged.index
            columns := sortColumns merged.columns }

/-- merge_quarterly_data: every existing sheet survives under its own
name, updated by the merge loop body. -/
def merge_quarterly_data (existing_sheets new_sheets : List (String × DataFrame)) :
    List (String × DataFrame) :=
  existing_sheets.map (fun p => (p.1, merge_sheet_update new_sheets p.1 p.2))

/-- find_missing_companies: no reference revenue sheet gives the empty
list; a sheet lacking the queried column reports every row; otherwise
exactly the rows whose cell in that column is missing, in row order. -/
def find_missing_companies (sheets : List (String × DataFrame)) (target_period : String) :
    List String :=
  match List.lookup "매출액_분기" sheets with
  | none => []
  | some revenue_sheet =>
    if !(revenue_sheet.columns.contains target_period) then revenue_sheet.index
    else
      revenue_sheet.index.filter
        (fun company => (revenue_sheet.cell company target_period).isNone)

/-- The annual aggregate helper safe_sum inside _append_to_results: per
metric, collect the non-None values of the four derived quarters and sum
them; None only when every quarter's value is None.  The attribute
access getattr(..., key_attr) is the supplied projection; the quarter
dictionary always carries all four keys when this runs. -/
def safe_sum (metrics_by_quarter : List (String × FinancialMetrics))
    (key_attr : FinancialMetrics → Option ℚ) : Option ℚ :=
  let vals := ["1Q", "2Q", "3Q", "4Q"].filterMap
    (fun q => (List.lookup q metrics_by_quarter).bind key_attr)
  if vals.isEmpty then none else some (vals.foldl (· + ·) 0)

/-! ### Helper lemmas -/

theorem lookup_map_pairs (g : String → DataFrame → DataFrame) :
    ∀ (l : List (String × DataFrame)) (k : String),
      List.lookup k (l.map (fun p => (p.1, g p.1 p.2))) = (List.lookup k l).map (g k) := by
  intro l k
  induction l with
  | nil => simp
  | cons p rest ih =>
    obtain ⟨a, b⟩ := p
    by_cases h : k = a
    · subst h
      simp [List.lookup]
    · have hb : (k == a) = false := by simp [h]
      simp [List.lookup, hb, ih]

theorem pySplitChar_length (sep : Char) :
    ∀ l : List Char, (pySplitChar sep l).length = l.count sep + 1 := by
  intro l
  induction l with
  | nil => simp [pySplitChar]
  | cons c cs ih =>
    simp only [pySplitChar]
    split
    · next hc =>
        subst hc
        simp only [List.length_cons, List.count_cons_self]
        omega
    · next hc =>
        rw [List.count_cons_of_ne (Ne.symm hc)]
        simp only [List.length_cons, List.length_tail]
        omega

/-! ### Claim C1 — merge never overwrites an existing non-missing cell -/

/-- C1: for every existing sheet collection and every new one, the merged
sheet of a given name keeps every non-missing cell of the existing sheet
unchanged, whatever the new sheets contain, and a merged cell can carry a
new value only where the existing cell was missing — in which case it is
exactly the new sheet's cell. -/
theorem merge_preserves_existing_values :
    ∀ (existing_sheets new_sheets : List (String × DataFrame)) (sheet_name : String)
      (existing_df merged_df : DataFrame) (r c : String) (v : ℚ),
      List.lookup sheet_name existing_sheets = some existing_df →
      List.lookup sheet_name (merge_quarterly_data existing_sheets new_sheets) = some merged_df →
      (existing_df.cell r c = some v → merged_df.cell r c = some v) ∧
      (existing_df.cell r c = none → merged_df.cell r c ≠ none →
        ∃ new_df, List.lookup sheet_name new_sheets = some new_df ∧
          merged_df.cell r c = new_df.cell r c) := by
  intro ex nw name dfE m r c v hE hM
  rw [merge_quarterly_data, lookup_map_pairs (merge_sheet_update nw), hE] at hM
  have hM' : merge_sheet_update nw name dfE = m := by
    simpa using hM
  subst hM'
  unfold merge_sheet_update
  by_cases hq : (!QUARTERLY_SHEETS.contains name) = true
  · rw [if_pos hq]
    exact ⟨fun h => h, fun h hne => absurd h hne⟩
  · rw [if_neg hq]
    split
    · exact ⟨fun h => h, fun h hne => absurd h hne⟩
    · next ndf hnw =>
        split
        · exact ⟨fun h => h, fun h hne => absurd h hne⟩
        · constructor
          · intro h
            show (combine_first dfE ndf).cell r c = some v
            simp [combine_first, h]
          · intro h _
            refine ⟨ndf, hnw, ?_⟩
            show (combine_first dfE ndf).cell r c = ndf.cell r c
            simp [combine_first, h]

/-- Existing sheet for the C1 witness: company A already has 5 in the
2024.1Q column. -/
def dfExistingW : DataFrame where
  index := ["A"]
  columns := ["2024.1Q"]
  cell := fun r c => if r = "A" && c = "2024.1Q" then some 5 else none

/-- New sheet for the C1 witness: it offers a different value, 99, for
the very same cell. -/
def dfNewW : DataFrame where
  index := ["A"]
  columns := ["2024.1Q"]
  cell := fun r c => if r = "A" && c = "2024.1Q" then some 99 else none

/-- C1 witness: merging the two one-cell sheets keeps the existing value
5 even though the new sheet holds 99 there. -/
theorem merge_preserves_existing_values_witness :
    ∃ m, List.lookup "매출액_분기"
        (merge_quarterly_data [("매출액_분기", dfExistingW)] [("매출액_분기", dfNewW)]) = some m ∧
      m.cell "A" "2024.1Q" = some 5 := by
  refine ⟨merge_sheet_update [("매출액_분기", dfNewW)] "매출액_분기" dfExistingW, rfl, ?_⟩
  exact (merge_preserves_existing_values [("매출액_분기", dfExistingW)] [("매출액_분기", dfNewW)]
    "매출액_분기" dfExistingW _ "A" "2024.1Q" 5 rfl rfl).1 rfl

/-! ### Claim C2 — the period-column sort key -/

/-- C2 counterexample: the claimed parse and the claimed ordering are
both false on the code.  "2024.10Q" parses to (2024, 1), not (0, 0); the
plain year "2024" parses to (0, 0), not (2024, 0); and the example
columns therefore do not sort with "2024.10Q" first. -/
theorem sort_key_claim_counterexample :
    sortColumns ["2024.10Q", "2023.2Q", "2024.2Q", "2024"] ≠
      ["2024.10Q", "2023.2Q", "2024", "2024.2Q"] ∧
    sort_key "2024" ≠ (2024, 0) ∧
    sort_key "2024.10Q" ≠ (0, 0) := by
  decide

/-- C2 amended, for every label: when the label splits on the dot into
exactly two parts, the year part parses as an int and the quarter part
starts with a decimal digit, the key is (int(year-part), first digit of
the quarter part) — so "2024.10Q" maps to (2024, 1); every other label
maps to (0, 0) and sorts first, deterministically and without raising —
this covers plain year labels such as "2024" (no dot), labels with
several dots, labels with a non-numeric year part, and labels whose
quarter part is empty or starts with a non-digit; the example columns
sort to ["2024", "2023.2Q", "2024.10Q", "2024.2Q"]. -/
theorem sort_key_spec :
    (∀ (label : String) (y : List Char) (yi : Int) (qc : Char) (rest : List Char),
      pySplitChar '.' label.toList = [y, qc :: rest] →
      pyIntOfChars y = some yi →
      qc.isDigit = true →
      sort_key label = (yi, (digitVal qc : Int))) ∧
    (∀ label : String,
      (∀ y q : List Char, pySplitChar '.' label.toList = [y, q] →
        pyIntOfChars y = none ∨ ∀ qc rest, q = qc :: rest → qc.isDigit = false) →
      sort_key label = (0, 0)) ∧
    sort_key "2023.2Q" = (2023, 2) ∧ sort_key "2024.2Q" = (2024, 2) ∧
    sort_key "2024.10Q" = (2024, 1) ∧ sort_key "2024" = (0, 0) ∧
    sortColumns ["2024.10Q", "2023.2Q", "2024.2Q", "2024"] =
      ["2024", "2023.2Q", "2024.10Q", "2024.2Q"] := by
  refine ⟨?_, ?_, by decide, by decide, by decide, by decide, by decide⟩
  · intro label y yi qc rest hsplit hyi hdig
    have hsplit' : pySplitChar '.' label.data = [y, qc :: rest] := hsplit
    simp [sort_key, hsplit', hyi, hdig]
  · intro label hfail
    unfold sort_key
    rcases hp : pySplitChar '.' label.toList with _ | ⟨y, _ | ⟨q, _ | _⟩⟩
    · rfl
    · rfl
    · rcases q with _ | ⟨qc, rest⟩
      · rcases hyi : pyIntOfChars y with _ | yi <;> simp [hyi]
      · rcases hfail y (qc :: rest) hp with hyi | hdig
        · simp [hyi]
        · have hd : qc.isDigit = false := hdig qc rest rfl
          rcases hyi : pyIntOfChars y with _ | yi <;> simp [hyi, hd]
    · rfl

/-- C2 witness: the success rule at a fresh concrete label and the
fallback rule at a one-dot label whose year part is not numeric. -/
theorem sort_key_spec_witness :
    sort_key "2025.3Q" = (2025, 3) ∧ sort_key "abc.2Q" = (0, 0) := by
  constructor
  · exact sort_key_spec.1 "2025.3Q" "2025".toList 2025 '3' "Q".toList (by decide) (by decide)
      (by decide)
  · refine sort_key_spec.2.1 "abc.2Q" ?_
    intro y q h
    have h2 : (["abc".toList, "2Q".toList] : List (List Char)) = [y, q] :=
      (by decide : pySplitChar '.' "abc.2Q".toList =
        ["abc".toList, "2Q".toList]).symm.trans h
    simp only [List.cons.injEq, and_true] at h2
    obtain ⟨hy, hq⟩ := h2
    subst hy
    left
    decide

/-! ### Claim C8 — find_missing with the reference sheet present -/

/-- C8: with the reference revenue sheet present, a queried period label
that is not a column reports every row's entity, and a label that is a
column reports exactly the entities whose cell there is missing. -/
theorem find_missing_companies_spec :
    ∀ (sheets : List (String × DataFrame)) (target_period : String) (df : DataFrame),
      List.lookup "매출액_분기" sheets = some df →
      (target_period ∉ df.columns →
        find_missing_companies sheets target_period = df.index) ∧
      (target_period ∈ df.columns →
        ∀ e, e ∈ find_missing_companies sheets target_period ↔
          e ∈ df.index ∧ df.cell e target_period = none) := by
  intro sheets tp df h
  simp only [find_missing_companies, h]
  constructor
  · intro hno
    have hc : df.columns.contains tp = false := by
      simpa using fun hmem => hno (List.elem_iff.mp hmem)
    rw [hc]
    simp
  · intro hyes e
    have hc : df.columns.contains tp = true := List.elem_eq_true_of_mem hyes
    rw [hc]
    simp [List.mem_filter, Option.isNone_iff_eq_none]

/-- Reference sheet for the C8 witness: A's 2024.1Q cell is missing, B's
holds 7. -/
def dfRefW : DataFrame where
  index := ["A", "B"]
  columns := ["2024.1Q"]
  cell := fun r c => if r = "B" && c = "2024.1Q" then some 7 else none

/-- C8 witness: querying the present column reports exactly A. -/
theorem find_missing_companies_spec_witness :
    "A" ∈ find_missing_companies [("매출액_분기", dfRefW)] "2024.1Q" ∧
    "B" ∉ find_missing_companies [("매출액_분기", dfRefW)] "2024.1Q" := by
  have h := (find_missing_companies_spec [("매출액_분기", dfRefW)] "2024.1Q" dfRefW rfl).2
    (by decide)
  constructor
  · exact (h "A").mpr ⟨by decide, rfl⟩
  · intro hB
    have := ((h "B").mp hB).2
    exact absurd this (by decide)

/-! ### Claim C10 — no reference sheet means nobody reported missing -/

/-- C10: when the sheet mapping lacks the quarterly revenue reference
sheet, find_missing_companies returns the empty list for every target
period. -/
theorem find_missing_no_reference_sheet :
    ∀ (sheets : List (String × DataFrame)) (target_period : String),
      List.lookup "매출액_분기" sheets = none →
      find_missing_companies sheets target_period = [] := by
  intro sheets tp h
  unfold find_missing_companies
  rw [h]

/-- C10 witness: an empty sheet mapping reports nobody missing. -/
theorem find_missing_no_reference_sheet_witness :
    find_missing_companies [] "2025.1Q" = [] :=
  find_missing_no_reference_sheet [] "2025.1Q" rfl

/-! ### Claim C6 — the 2Q derivation -/

/-- C6: 2Q is the all-None triple when the half-year statement is absent;
a cumulative half-year with Q1 present yields the component-wise safe
subtraction; a non-cumulative half-year, or an absent Q1, yields the raw
half-year metrics — the branch is picked by the flag alone — and the
safe subtraction propagates any absent operand to an absent result. -/
theorem calculate_q2_spec :
    ∀ (svc : DataProcessingService) (q1_stmt semi_stmt : Option FinancialStatement),
      (semi_stmt = none → calculate_q2 svc q1_stmt semi_stmt = noneMetrics) ∧
      (∀ ss q1, semi_stmt = some ss → ss.is_cumulative = true → q1_stmt = some q1 →
        calculate_q2 svc q1_stmt semi_stmt =
          calculate_diff (extract_metrics svc ss) (extract_metrics svc q1)) ∧
      (∀ ss, semi_stmt = some ss → (ss.is_cumulative = false ∨ q1_stmt = none) →
        calculate_q2 svc q1_stmt semi_stmt = extract_metrics svc ss) ∧
      (∀ a : Option ℚ, safe_sub a none = none ∧ safe_sub none a = none) := by
  intro svc q1s semis
  refine ⟨?_, ?_, ?_, ?_⟩
  · rintro rfl
    rfl
  · rintro ss q1 rfl hc rfl
    simp [calculate_q2, hc]
  · rintro ss rfl hor
    rcases hor with hc | hq
    · simp [calculate_q2, hc]
    · subst hq
      cases hcc : ss.is_cumulative <;> simp [calculate_q2, hcc]
  · intro a
    exact ⟨by cases a <;> rfl, by cases a <;> rfl⟩

/-- Half-year statement carrying 250 but flagged non-cumulative, for the
C6 witness. -/
def semiRawW : FinancialStatement where
  corp_code := "00126380"
  corp_name := "회사"
  bsns_year := 2024
  reprt_type := ReportType.SEMI_ANNUAL
  fs_type := FinancialStatementType.CONSOLIDATED
  accounts := [⟨"매출액", "250"⟩]
  is_cumulative := false

/-- Q1 statement carrying 100, for the C6 witness. -/
def q1W : FinancialStatement where
  corp_code := "00126380"
  corp_name := "회사"
  bsns_year := 2024
  reprt_type := ReportType.Q1
  fs_type := FinancialStatementType.CONSOLIDATED
  accounts := [⟨"매출액", "100"⟩]
  is_cumulative := true

/-- C6 witness: a half-year flagged non-cumulative passes through raw
even though Q1 is present — no subtraction happens. -/
theorem calculate_q2_spec_witness :
    calculate_q2 defaultService (some q1W) (some semiRawW) =
      extract_metrics defaultService semiRawW :=
  (calculate_q2_spec defaultService (some q1W) (some semiRawW)).2.2.1 semiRawW rfl (Or.inl rfl)

/-! ### Claim C3 — the cumulative-through-Q3 helper -/

/-- Half-year statement with no revenue line item (operating profit
only), for the C3 counterexample. -/
def semiNoRevenueW : FinancialStatement where
  corp_code := "00126380"
  corp_name := "회사"
  bsns_year := 2024
  reprt_type := ReportType.SEMI_ANNUAL
  fs_type := FinancialStatementType.CONSOLIDATED
  accounts := [⟨"영업이익", "5"⟩]
  is_cumulative := true

/-- Standalone Q3 statement with revenue 10 and operating profit 7, for
the C3 counterexample. -/
def q3StandaloneW : FinancialStatement where
  corp_code := "00126380"
  corp_name := "회사"
  bsns_year := 2024
  reprt_type := ReportType.Q3
  fs_type := FinancialStatementType.CONSOLIDATED
  accounts := [⟨"매출액", "10"⟩, ⟨"영업이익", "7"⟩]
  is_cumulative := false

/-- C3 counterexample: both the half-year and the Q3 statements are
present and Q3 is not cumulative, yet the helper is absent instead of the
claimed component-wise sum, because the half-year's extracted revenue is
missing — the code gates Case 2 on the two revenue fields, not on
statement presence. -/
theorem cumulative_q3_claim_counterexample :
    q3StandaloneW.is_cumulative = false ∧
    cumulative_q3_of defaultService none (some semiNoRevenueW) (some q3StandaloneW) = none ∧
    cumulative_q3_of defaultService none (some semiNoRevenueW) (some q3StandaloneW) ≠
      some (add_metrics (extract_metrics defaultService semiNoRevenueW)
        (extract_metrics defaultService q3StandaloneW)) := by
  refine ⟨rfl, by decide, ?_⟩
  intro h
  rw [show cumulative_q3_of defaultService none (some semiNoRevenueW) (some q3StandaloneW)
      = none by decide] at h
  exact Option.noConfusion h

/-- C3 amended: when the Q3 statement is present and cumulative the
helper is its extraction; otherwise, when the extracted revenues of the
half-year and Q3 statements are both non-missing the helper is their
component-wise safe sum, and when either revenue is missing the helper is
absent (presence of the statements alone is not enough). -/
theorem cumulative_q3_spec :
    ∀ (svc : DataProcessingService) (q1_stmt semi_stmt q3_stmt : Option FinancialStatement),
      (∀ st, q3_stmt = some st → st.is_cumulative = true →
        cumulative_q3_of svc q1_stmt semi_stmt q3_stmt = some (extract_metrics svc st)) ∧
      ((∀ st, q3_stmt = some st → st.is_cumulative = false) →
        ((extract_opt svc semi_stmt).revenue ≠ none → (extract_opt svc q3_stmt).revenue ≠ none →
          cumulative_q3_of svc q1_stmt semi_stmt q3_stmt =
            some (add_metrics (extract_opt svc semi_stmt) (extract_opt svc q3_stmt))) ∧
        (((extract_opt svc semi_stmt).revenue = none ∨ (extract_opt svc q3_stmt).revenue = none) →
          cumulative_q3_of svc q1_stmt semi_stmt q3_stmt = none)) := by
  intro svc q1s semis q3s
  constructor
  · rintro st rfl hc
    simp [cumulative_q3_of, get_cumulative_q3, hc, extract_opt]
  · intro hnc
    cases hq3 : q3s with
    | none =>
      constructor
      · intro h1 h2
        simp [cumulative_q3_of, get_cumulative_q3, Option.isSome_iff_ne_none, h1, h2]
      · intro hor
        rcases hor with h | h <;>
          simp [cumulative_q3_of, get_cumulative_q3, Option.isSome_iff_ne_none, h]
    | some st =>
      have hst : st.is_cumulative = false := hnc st hq3
      constructor
      · intro h1 h2
        simp [cumulative_q3_of, get_cumulative_q3, hst, Option.isSome_iff_ne_none, h1, h2]
      · intro hor
        rcases hor with h | h <;>
          simp [cumulative_q3_of, get_cumulative_q3, hst, Option.isSome_iff_ne_none, h]

/-- Cumulative Q3 statement carrying 450, for the C3 and C5
witnesses. -/
def q3CumW : FinancialStatement where
  corp_code := "00126380"
  corp_name := "회사"
  bsns_year := 2024
  reprt_type := ReportType.Q3
  fs_type := FinancialStatementType.CONSOLIDATED
  accounts := [⟨"매출액", "450"⟩]
  is_cumulative := true

/-- C3 witness: the cumulative-Q3 branch at a concrete statement. -/
theorem cumulative_q3_spec_witness :
    cumulative_q3_of defaultService none none (some q3CumW) =
      some (extract_metrics defaultService q3CumW) :=
  (cumulative_q3_spec defaultService none none (some q3CumW)).1 q3CumW rfl rfl

/-! ### Claim C5 — the 4Q derivation and the end-to-end scenario -/

/-- Q1 statement with revenue 100 for the C5 scenario. -/
def q1ScenW : FinancialStatement where
  corp_code := "00126380"
  corp_name := "회사"
  bsns_year := 2024
  reprt_type := ReportType.Q1
  fs_type := FinancialStatementType.CONSOLIDATED
  accounts := [⟨"매출액", "100"⟩]
  is_cumulative := true

/-- Cumulative half-year statement with revenue 250 for the C5
scenario. -/
def semiScenW : FinancialStatement where
  corp_code := "00126380"
  corp_name := "회사"
  bsns_year := 2024
  reprt_type := ReportType.SEMI_ANNUAL
  fs_type := FinancialStatementType.CONSOLIDATED
  accounts := [⟨"매출액", "250"⟩]
  is_cumulative := true

/-- Annual statement with revenue 800 for the C5 scenario. -/
def annualScenW : FinancialStatement where
  corp_code := "00126380"
  corp_name := "회사"
  bsns_year := 2024
  reprt_type := ReportType.ANNUAL
  fs_type := FinancialStatementType.CONSOLIDATED
  accounts := [⟨"매출액", "800"⟩]
  is_cumulative := true

/-- C5: 4Q is the all-None triple when the annual statement is absent or
the cumulative-through-Q3 value is absent, and is otherwise the
component-wise safe subtraction of cumulative-through-Q3 from the annual
extraction; the concrete scenario Q1=100, cumulative H1=250, cumulative
Q3=450, annual=800 yields 2Q=150, 3Q=200, cumulative-through-Q3=450 and
4Q=350. -/
theorem calculate_q4_spec :
    (∀ (svc : DataProcessingService) (q1s semis q3s : Option FinancialStatement),
      calculate_q4 svc q1s semis q3s none = noneMetrics) ∧
    (∀ (svc : DataProcessingService) (q1s semis q3s anns : Option FinancialStatement),
      cumulative_q3_of svc q1s semis q3s = none →
      calculate_q4 svc q1s semis q3s anns = noneMetrics) ∧
    (∀ (svc : DataProcessingService) (q1s semis q3s : Option FinancialStatement)
      (ann : FinancialStatement) (cum : FinancialMetrics),
      cumulative_q3_of svc q1s semis q3s = some cum →
      calculate_q4 svc q1s semis q3s (some ann) =
        calculate_diff (extract_metrics svc ann) cum) ∧
    ((calculate_q2 defaultService (some q1ScenW) (some semiScenW)).revenue = some 150) ∧
    ((calculate_q3 defaultService (some semiScenW) (some q3CumW)).revenue = some 200) ∧
    (cumulative_q3_of defaultService (some q1ScenW) (some semiScenW) (some q3CumW) =
      some (extract_metrics defaultService q3CumW) ∧
      (extract_metrics defaultService q3CumW).revenue = some 450) ∧
    ((calculate_q4 defaultService (some q1ScenW) (some semiScenW) (some q3CumW)
        (some annualScenW)).revenue = some 350) ∧
    (List.lookup "4Q" (calculate_quarterly_performance defaultService (some q1ScenW)
        (some semiScenW) (some q3CumW) (some annualScenW)).metrics_by_quarter =
      some (calculate_q4 defaultService (some q1ScenW) (some semiScenW) (some q3CumW)
        (some annualScenW))) := by
  refine ⟨?_, ?_, ?_, ?_, ?_, ⟨by decide, by decide⟩, ?_, ?_⟩
  · intro svc q1s semis q3s
    rfl
  · intro svc q1s semis q3s anns h
    unfold cumulative_q3_of at h
    cases anns with
    | none => rfl
    | some ann => simp [calculate_q4, h]
  · intro svc q1s semis q3s ann cum h
    unfold cumulative_q3_of at h
    simp [calculate_q4, h]
  · have h : (calculate_q2 defaultService (some q1ScenW) (some semiScenW)).revenue =
        some ((250 : ℚ) - (100 : ℚ)) := rfl
    rw [h]
    norm_num
  · have h : (calculate_q3 defaultService (some semiScenW) (some q3CumW)).revenue =
        some ((450 : ℚ) - (250 : ℚ)) := rfl
    rw [h]
    norm_num
  · have h : (calculate_q4 defaultService (some q1ScenW) (some semiScenW) (some q3CumW)
        (some annualScenW)).revenue = some ((800 : ℚ) - (450 : ℚ)) := rfl
    rw [h]
    norm_num
  · rfl

/-- C5 witness: an absent cumulative-through-Q3 value makes 4Q the
all-None triple even when the annual statement is present. -/
theorem calculate_q4_spec_witness :
    calculate_q4 defaultService none none none (some annualScenW) = noneMetrics :=
  calculate_q4_spec.2.1 defaultService none none none (some annualScenW) rfl

/-! ### Claim C4 — the is_cumulative bit of a parsed statement -/

theorem parse_date_info_cumulative (items : List RawItem) :
    (parse_date_info items).2.2 = true ↔
      ∃ d, (parse_date_info items).1 = some d ∧ d.month = 1 ∧ d.day = 1 := by
  cases items with
  | nil => simp [parse_date_info]
  | cons it rest =>
    by_cases hdt : it.thstrm_dt = ""
    · simp [parse_date_info, hdt]
    · simp only [parse_date_info]
      rw [if_neg hdt]
      split
      · split
        · next sd ed hsd hed =>
            simp [Bool.and_eq_true, decide_eq_true_eq]
        · simp
      · simp

/-- Response whose period runs from January 1 of 2022 while the fiscal
year passed to the parser is 2023, for the C4 counterexample. -/
def respNonFiscalW : RawResponse where
  status := "000"
  items := [{ corp_name := "회사", thstrm_dt := "2022.01.01 ~ 2022.06.30",
              account_nm := "매출액", thstrm_amount := "100" }]

/-- C4 counterexample: the parsed statement has fiscal year 2023 and a
period start of January 1, 2022 — not January 1 of its fiscal year —
yet its is_cumulative flag is true: the code never compares the start
year with the fiscal year. -/
theorem parse_is_cumulative_counterexample :
    ∃ st, parse_financial_statement respNonFiscalW "00126380" 2023 ReportType.SEMI_ANNUAL
        FinancialStatementType.CONSOLIDATED = some st ∧
      st.is_cumulative = true ∧ st.bsns_year = 2023 ∧ st.start_date = some ⟨2022, 1, 1⟩ ∧
      ∀ d, st.start_date = some d → ¬ d.year = 2023 := by
  refine ⟨_, rfl, by decide, by decide, by decide, ?_⟩
  intro d hd
  have hd' : (⟨2022, 1, 1⟩ : PyDate) = d := Option.some.inj hd
  subst hd'
  decide

/-- C4 amended: for every statement assembled from a retrieval response,
is_cumulative is true exactly when the parsed period start has month
January and day 1 — the statement's fiscal year is not consulted. -/
theorem parse_is_cumulative_spec :
    ∀ (resp : RawResponse) (corp_code : String) (year : Int) (report_type : ReportType)
      (fs_type : FinancialStatementType) (st : FinancialStatement),
      parse_financial_statement resp corp_code year report_type fs_type = some st →
      (st.is_cumulative = true ↔ ∃ d, st.start_date = some d ∧ d.month = 1 ∧ d.day = 1) := by
  intro resp cc y rt ft st h
  unfold parse_financial_statement at h
  by_cases hs : resp.status ≠ "000"
  · rw [if_pos hs] at h
    exact absurd h (by simp)
  · rw [if_neg hs] at h
    split at h
    · exact absurd h (by simp)
    · next it rest heq =>
        have hst := Option.some.inj h
        subst hst
        exact parse_date_info_cumulative resp.items

/-- Response with a period starting January 1 of the fiscal year, for the
C4 witness. -/
def respCumW : RawResponse where
  status := "000"
  items := [{ corp_name := "회사", thstrm_dt := "2023.01.01 ~ 2023.09.30",
              account_nm := "매출액", thstrm_amount := "100" }]

/-- C4 witness: the amended rule applied to a concrete cumulative
response. -/
theorem parse_is_cumulative_spec_witness :
    ∃ st, parse_financial_statement respCumW "00126380" 2023 ReportType.Q3
        FinancialStatementType.CONSOLIDATED = some st ∧ st.is_cumulative = true := by
  refine ⟨_, rfl, ?_⟩
  exact (parse_is_cumulative_spec respCumW "00126380" 2023 ReportType.Q3
    FinancialStatementType.CONSOLIDATED _ rfl).mpr ⟨⟨2023, 1, 1⟩, rfl, rfl, rfl⟩

/-! ### Claim C7 — the annual aggregate versus the subtraction rule -/

/-- C7: per metric, safe_sum over the four derived quarters is absent
exactly when all four values are absent, and otherwise sums the present
values with each absent quarter contributing nothing; the derivation
subtraction, by contrast, is absent as soon as either operand is. -/
theorem safe_sum_spec :
    ∀ (m1 m2 m3 m4 : FinancialMetrics) (key_attr : FinancialMetrics → Option ℚ),
      (safe_sum [("1Q", m1), ("2Q", m2), ("3Q", m3), ("4Q", m4)] key_attr = none ↔
        key_attr m1 = none ∧ key_attr m2 = none ∧ key_attr m3 = none ∧ key_attr m4 = none) ∧
      (∀ s, safe_sum [("1Q", m1), ("2Q", m2), ("3Q", m3), ("4Q", m4)] key_attr = some s →
        s = (key_attr m1).getD 0 + (key_attr m2).getD 0 + (key_attr m3).getD 0 +
          (key_attr m4).getD 0) ∧
      (∀ a b : Option ℚ, safe_sub a b = none ↔ a = none ∨ b = none) := by
  intro m1 m2 m3 m4 attr
  have hss : safe_sum [("1Q", m1), ("2Q", m2), ("3Q", m3), ("4Q", m4)] attr =
      (if ([attr m1, attr m2, attr m3, attr m4].filterMap id).isEmpty then none
       else some (([attr m1, attr m2, attr m3, attr m4].filterMap id).foldl (· + ·) 0)) := rfl
  refine ⟨?_, ?_, ?_⟩
  · rw [hss]
    rcases h1 : attr m1 with _ | v1 <;> rcases h2 : attr m2 with _ | v2 <;>
      rcases h3 : attr m3 with _ | v3 <;> rcases h4 : attr m4 with _ | v4 <;>
      simp [List.filterMap]
  · intro s
    rw [hss]
    rcases h1 : attr m1 with _ | v1 <;> rcases h2 : attr m2 with _ | v2 <;>
      rcases h3 : attr m3 with _ | v3 <;> rcases h4 : attr m4 with _ | v4 <;>
      simp [List.filterMap, List.foldl] <;> intro hs <;> rw [← hs] <;> ring
  · intro a b
    rcases a with _ | x <;> rcases b with _ | y <;> simp [safe_sub]

/-- C7 witness: all four quarters absent gives an absent aggregate. -/
theorem safe_sum_spec_witness :
    safe_sum [("1Q", noneMetrics), ("2Q", noneMetrics), ("3Q", noneMetrics),
      ("4Q", noneMetrics)] (fun m => m.revenue) = none :=
  (safe_sum_spec noneMetrics noneMetrics noneMetrics noneMetrics
    (fun m => m.revenue)).1.mpr ⟨rfl, rfl, rfl, rfl⟩

/-! ### Claim C9 — the budgeted collection loop -/

end DartFss
